import Mathlib

/-!
Shallow embedding of the MyCobot workspace-explorer application
(gui_node.py and point_generator.py) and verification of its
natural-language specification.

Python floats are modelled as rationals; where a float result of a
transcendental function (cos, sin) or of float rounding enters the code,
the embedding is parametrised over those functions so that every proved
statement holds for any actual float behaviour.  Hardware interaction is
modelled by an oracle structure `HW` describing the connection handle and
the outcome of each vendor call; Python exceptions that escape a handler
are modelled by an explicit `Option PyErr` component of the result.
-/

namespace MyCobot

/-- A 6-component pose: position in millimetres, orientation in degrees.
Mirrors the `[x, y, z, r1, r2, r3]` lists used throughout gui_node.py. -/
structure Pose where
  x : ℚ
  y : ℚ
  z : ℚ
  r1 : ℚ
  r2 : ℚ
  r3 : ℚ
deriving DecidableEq, Repr

def poseDefault : Pose := ⟨0, 0, 0, 0, 0, 0⟩

/-- RGBA colour tuple, as the 4-tuples of floats used by the canvas. -/
abbrev Color := ℚ × ℚ × ℚ × ℚ

/-- Default unvisited colour `(0, 0, 1, 0.4)`. -/
def unvisitedBlue : Color := (0, 0, 1, 2/5)

/-- Highlight colour `(1, 1, 0, 0.9)`. -/
def highlightYellow : Color := (1, 1, 0, 9/10)

/-- Success colour `(1, 1, 1, 0.7)`. -/
def successWhite : Color := (1, 1, 1, 7/10)

/-- Failure colour `(1, 0, 0, 1.0)`. -/
def failureRed : Color := (1, 0, 0, 1)

/-- Unreadable-pose colour `(0.5, 0.5, 0.5, 0.8)`. -/
def unknownGray : Color := (1/2, 1/2, 1/2, 4/5)

/-- Operator-verified colour `(0, 1, 0, 1)`. -/
def verifiedGreen : Color := (0, 1, 0, 1)

/-! ## Rectangular grid generator (gui_node.py, generate_grid_points) -/

/-- Python `range(start, stop, step)` for a positive step: the values
`start, start + step, ...` strictly below `stop`. -/
def pyRange (start stop step : Int) : List Int :=
  if 0 < step then
    (List.range (((stop - start + step - 1) / step).toNat)).map
      (fun i => start + step * (i : Int))
  else []

/-- gui_node.py `generate_grid_points`: for z in z_values, for x in
range(x0, x1 + 1, step), for y in range(y0, y1 + 1, step), append
`[x, y, z, 180.0, 0.0, 0.0]`. -/
def generate_grid_points (x_range y_range : Int × Int) (z_values : List ℚ)
    (step : Int) : List Pose :=
  z_values.flatMap (fun z =>
    (pyRange x_range.1 (x_range.2 + 1) step).flatMap (fun x =>
      (pyRange y_range.1 (y_range.2 + 1) step).map (fun y =>
        Pose.mk (x : ℚ) (y : ℚ) z 180 0 0)))

/-- The default-argument call `generate_grid_points()` made in `__init__`. -/
def defaultGridPoints : List Pose :=
  generate_grid_points (-300, 300) (-300, 300) [40, 50, 100, 200] 50

/-! ## Polar grid generator (point_generator.py) -/

def Z_LAYERS : List ℚ := [40, 100, 150, 200]
def MAX_RADIUS : ℚ := 200
def RADIUS_STEP : ℚ := 20
def ANGLE_STEPS : Nat := 12
def MAX_REACH : ℚ := 280

/-- The radii visited by the `while radius <= MAX_RADIUS` loop that starts
at `RADIUS_STEP` and increments by `RADIUS_STEP`: exactly
`RADIUS_STEP * 1, ..., RADIUS_STEP * 10` (the float additions involved are
exact, so the loop is equivalent to this list). -/
def radiusValues : List ℚ :=
  (List.range 10).map (fun k => RADIUS_STEP * ((k : ℚ) + 1))

/-- point_generator.py `generate_points`, parametrised over the float
implementations: `fcos i` and `fsin i` stand for the float values of
`cos(2*pi*i/ANGLE_STEPS)` and `sin(2*pi*i/ANGLE_STEPS)`, and `round2`
for Python `round(., 2)`.  The source guard
`sqrt(x^2 + y^2 + z^2) <= MAX_REACH` is expressed by the equivalent
squared comparison `x^2 + y^2 + z^2 <= MAX_REACH^2` (both sides are
nonnegative). -/
def generate_points (fcos fsin : Nat → ℚ) (round2 : ℚ → ℚ) : List Pose :=
  Z_LAYERS.flatMap (fun z =>
    radiusValues.flatMap (fun radius =>
      (List.range ANGLE_STEPS).filterMap (fun i =>
        let x := round2 (radius * fcos i)
        let y := round2 (radius * fsin i)
        if x ^ 2 + y ^ 2 + z ^ 2 ≤ MAX_REACH ^ 2 then
          some (Pose.mk x y z 180 0 0)
        else
          none)))

/-! ## Visualization canvas (gui_node.py, MplCanvas) -/

/-- The canvas state relevant to the claims: the fixed point list and the
per-marker colour list (`self.points`, `self.colors`). -/
structure MplCanvas where
  points : List Pose
  colors : List Color
deriving DecidableEq, Repr

/-- `MplCanvas.__init__`: one colour per point, all initialised to the
translucent unvisited blue. -/
def MplCanvas.construct (points : List Pose) : MplCanvas :=
  { points := points, colors := List.replicate points.length unvisitedBlue }

/-- `MplCanvas.update_point_color`: guarded by `0 <= index < len(points)`;
out of range it returns without touching anything. -/
def update_point_color (c : MplCanvas) (index : Int) (color : Color) :
    MplCanvas :=
  if 0 ≤ index ∧ index < (c.points.length : Int) then
    { c with colors := c.colors.set index.toNat color }
  else c

/-- `MplCanvas.highlight_point`: first resets every marker whose colour is
not the success white or the failure red back to the unvisited blue (the
source loop runs over `range(len(self.points))`; under the invariant that
the colour list has one entry per point, proved below, this is the same as
mapping over the colour list), then, only if the index is in range, sets
that marker to the highlight yellow. -/
def highlight_point (c : MplCanvas) (index : Int) : MplCanvas :=
  let colors := c.colors.map
    (fun col => if col = successWhite ∨ col = failureRed then col
                else unvisitedBlue)
  let colors :=
    if 0 ≤ index ∧ index < (c.points.length : Int) then
      colors.set index.toNat highlightYellow
    else colors
  { c with colors := colors }

/-! ## Robot communication oracle and GUI state (gui_node.py, WorkspaceGUI) -/

/-- A Python exception escaping an operation: `attributeError` for calling
a method on the absent (`None`) handle, `hwError` for an error raised by a
vendor call. -/
inductive PyErr where
  | attributeError
  | hwError
deriving DecidableEq, Repr

/-- Oracle describing the hardware handle and the outcome each vendor call
would have during the operation under consideration.
`connected = false` models `self.mc = None` after a failed connection.
`coords = none` models `get_coords` raising or returning `None`;
`isMoving = none` models `is_moving` raising. -/
structure HW where
  connected : Bool
  sendCoordsOk : Bool
  coords : Option Pose
  isMoving : Option Bool
  hasStop : Bool
  stopOk : Bool
  sendAnglesOk : Bool
  releaseOk : Bool
deriving DecidableEq, Repr

/-- One recorded visit outcome (`self.results` entries); the timestamp is
the wall-clock string `datetime.utcnow().isoformat()`. -/
structure VisitResult where
  target : Pose
  reached : Option Pose
  error : Option ℚ
  passed : Bool
  timestamp : String
deriving DecidableEq, Repr

/-- The mutable state of `WorkspaceGUI` relevant to the claims, plus
observation traces: `labels` is the live pose readout (none = "N/A"),
`logMsgs` the status-feed lines appended by `self.log`, `sentCoords` every
`send_coords` command actually issued to the hardware (pose and speed),
`sentAngles` the number of `send_angles` commands issued, and
`isMovingQueries` the number of `is_moving` queries made. -/
structure GUIState where
  points : List Pose
  current_index : Nat
  robot_busy : Bool
  paused : Bool
  stopped : Bool
  canvas : MplCanvas
  results : List VisitResult
  speed : Nat
  labels : Option Pose
  logMsgs : List String
  sentCoords : List (Pose × Nat)
  sentAngles : Nat
  isMovingQueries : Nat
deriving DecidableEq, Repr

/-- `self.log(message)`: append to the status feed (the local-time prefix
is presentation only and not modelled). -/
def logMsg (s : GUIState) (m : String) : GUIState :=
  { s with logMsgs := s.logMsgs ++ [m] }

/-- The state `WorkspaceGUI.__init__` establishes for a given pose set
(speed slider default 10; first point highlighted when the set is
nonempty). -/
def initState (points : List Pose) : GUIState :=
  let canvas := MplCanvas.construct points
  { points := points
    current_index := 0
    robot_busy := false
    paused := false
    stopped := false
    canvas := if points.length > 0 then highlight_point canvas 0 else canvas
    results := []
    speed := 10
    labels := none
    logMsgs := []
    sentCoords := []
    sentAngles := 0
    isMovingQueries := 0 }

/-- `safe_mc_send_coords`: no-op plus log when the handle is absent;
otherwise the command is issued and `robot_busy` set, or the raised error
is logged and `robot_busy` cleared. -/
def safe_mc_send_coords (hw : HW) (s : GUIState) (coords : Pose)
    (speed : Nat) : GUIState :=
  if ¬hw.connected then
    logMsg s "No robot connected."
  else
    let s := { s with sentCoords := s.sentCoords ++ [(coords, speed)] }
    if hw.sendCoordsOk then
      { s with robot_busy := true }
    else
      { logMsg s "send_coords failed" with robot_busy := false }

/-- `safe_mc_get_coords`: the pose, or none on a missing handle or a
failing query. -/
def safe_mc_get_coords (hw : HW) : Option Pose :=
  if hw.connected then hw.coords else none

/-- `safe_mc_is_moving`: false on a missing handle or a raising query. -/
def safe_mc_is_moving (hw : HW) : Bool :=
  if hw.connected then hw.isMoving.getD false else false

/-- `attempt_stop_api`: calls `mc.stop()` when the handle exposes it;
returns whether the call was made (and did not raise). -/
def attempt_stop_api (hw : HW) (s : GUIState) : GUIState × Bool :=
  if ¬hw.connected then (s, false)
  else if hw.hasStop then
    if hw.stopOk then (logMsg s "Called mc.stop()", true)
    else (logMsg s "mc.stop() raised", false)
  else (s, false)

/-- `go_home`: logs, then calls `self.mc.send_angles([0,0,0,0,0,0], 10)`
directly on the handle, with no guard and no try/except: with an absent
handle this raises `AttributeError`, and a raising vendor call
propagates. -/
def go_home (hw : HW) (s : GUIState) : GUIState × Option PyErr :=
  let s := logMsg s "PULANG WES!."
  if ¬hw.connected then (s, some .attributeError)
  else
    let s := { s with sentAngles := s.sentAngles + 1 }
    if hw.sendAnglesOk then (s, none) else (s, some .hwError)

/-- `clear_stop`: only acts when stopped; clears the flag, then calls
`self.mc.release_all_servos()` directly (unguarded, no try/except), sleeps
0.5 s, and goes home.  An exception leaves the mutations already made in
place. -/
def clear_stop (hw : HW) (s : GUIState) : GUIState × Option PyErr :=
  if s.stopped then
    let s := { s with stopped := false }
    if ¬hw.connected then (s, some .attributeError)
    else if ¬hw.releaseOk then (s, some .hwError)
    else go_home hw s
  else (s, none)

/-- `move_to_next_point`: refuses when paused or stopped; logs completion
past the end; otherwise highlights the current index and sends the move at
the commanded speed. -/
def move_to_next_point (hw : HW) (s : GUIState) : GUIState :=
  if s.paused = true ∨ s.stopped = true then
    logMsg s "Move to next aborted: paused/stopped."
  else if s.points.length ≤ s.current_index then
    logMsg s "Exploration finished."
  else
    let target := s.points.getD s.current_index poseDefault
    let s := logMsg s "Moving to target"
    let s := { s with canvas := highlight_point s.canvas s.current_index }
    safe_mc_send_coords hw s target s.speed

/-- `start_exploration`: refused while stopped; un-pauses; wraps the
cursor past the end back to 0; highlights and moves. -/
def start_exploration (hw : HW) (s : GUIState) : GUIState :=
  if s.stopped = true then
    logMsg s "System stopped. Clear stop to start."
  else
    let s := if s.paused = true then
        logMsg { s with paused := false } "Resuming from paused state."
      else s
    let s := logMsg s "Starting exploration."
    let s := if s.points.length ≤ s.current_index then
        logMsg { s with current_index := 0 } "Restarting from index 0."
      else s
    let s := { s with canvas := highlight_point s.canvas s.current_index }
    move_to_next_point hw s

/-- `toggle_pause`: `checked` is the new state of the checkable pause
button; resuming while the robot is idle immediately moves on. -/
def toggle_pause (hw : HW) (s : GUIState) (checked : Bool) : GUIState :=
  let s := { s with paused := checked }
  if checked then
    logMsg s "Paused exploration."
  else
    let s := logMsg s "Resumed exploration."
    if s.robot_busy = false then move_to_next_point hw s else s

/-- `emergency_stop`: always latches `stopped` and `paused`; attempts the
hardware stop; on failure falls back to a raw low-speed `send_coords` hold
toward the current pose (inside try/except, so a raising fallback is
logged, not propagated; note it bypasses the safe wrapper and does not set
`robot_busy`). -/
def emergency_stop (hw : HW) (s : GUIState) : GUIState :=
  let s0 := { s with stopped := true, paused := true }
  let s0 := logMsg s0 "EMERGENCY STOP triggered!"
  let s := (attempt_stop_api hw s0).1
  let ok := (attempt_stop_api hw s0).2
  if ok then s
  else
    let s := logMsg s "mc.stop() not available or failed. Software pausing moves (no further commands will be sent)."
    match safe_mc_get_coords hw with
    | some coords =>
        let s := { s with sentCoords := s.sentCoords ++ [(coords, 1)] }
        if hw.sendCoordsOk then
          logMsg s "Issued low-speed hold command to current pose."
        else
          logMsg s "Fallback hold command failed"
    | none => s

/-- `skip_point`: unconditionally advances the cursor, then moves if still
in range (the console prints in the source are not status-feed logs). -/
def skip_point (hw : HW) (s : GUIState) : GUIState :=
  let s := { s with current_index := s.current_index + 1 }
  if s.current_index < s.points.length then
    move_to_next_point hw s
  else s

/-- `color_current_point`: force-colours the current marker green when the
cursor is in range. -/
def color_current_point (s : GUIState) : GUIState :=
  if s.current_index < s.points.length then
    { s with canvas :=
        update_point_color s.canvas s.current_index verifiedGreen }
  else s

/-- `jog_axis`: refused while paused or stopped; refused when the current
pose is unreadable; otherwise adds the delta to the selected component and
sends the result at the commanded speed. -/
def jog_axis (hw : HW) (s : GUIState) (axis : Nat) (delta : ℚ) : GUIState :=
  if s.paused = true ∨ s.stopped = true then
    logMsg s "Cannot jog while paused/stopped."
  else
    match safe_mc_get_coords hw with
    | none => logMsg s "Cannot read current coords; abort jog."
    | some coords =>
        let nc :=
          if axis = 0 then { coords with x := coords.x + delta }
          else if axis = 1 then { coords with y := coords.y + delta }
          else if axis = 2 then { coords with z := coords.z + delta }
          else coords
        let s := logMsg s "Jogging"
        safe_mc_send_coords hw s nc s.speed

/-- The positional error computed in `check_robot_status`:
`abs(final[0]-target[0]) + abs(final[1]-target[1]) + abs(final[2]-target[2])`. -/
def positionError (final target : Pose) : ℚ :=
  |final.x - target.x| + |final.y - target.y| + |final.z - target.z|

/-- `check_robot_status`, the 200 ms tick; `now` is the wall-clock
timestamp string.  Returns the new state and whether a 250 ms one-shot
`move_to_next_point` continuation was scheduled by this tick.  Order as in
the source: live-pose readout first, then the exhausted/paused/stopped
guard, then the `is_moving` query, then (when a move was pending and the
arm is idle) the point evaluation. -/
def check_robot_status (hw : HW) (now : String) (s : GUIState) :
    GUIState × Bool :=
  let s := match safe_mc_get_coords hw with
    | some c => { s with labels := some c }
    | none => s
  if s.points.length ≤ s.current_index ∨ s.paused = true ∨
      s.stopped = true then
    (s, false)
  else
    let s := { s with isMovingQueries := s.isMovingQueries + 1 }
    if safe_mc_is_moving hw then (s, false)
    else if s.robot_busy = false then (s, false)
    else
      let target := s.points.getD s.current_index poseDefault
      let s := match safe_mc_get_coords hw with
        | none =>
            let s := logMsg s "Could not read final coords for evaluation."
            let s := { s with canvas :=
                update_point_color s.canvas s.current_index unknownGray }
            { s with results := s.results ++
                [VisitResult.mk target none none false now] }
        | some final =>
            let error := positionError final target
            let passed := error < 10
            let color := if error < 10 then successWhite else failureRed
            let s := logMsg s (if passed then "Point OK" else "Point FAIL")
            let s := { s with canvas :=
                update_point_color s.canvas s.current_index color }
            { s with results := s.results ++
                [VisitResult.mk target (some final) (some error) passed now] }
      let s := { s with robot_busy := false,
                        current_index := s.current_index + 1 }
      if s.paused = false ∧ s.stopped = false then (s, true) else (s, false)

/-- One row cell of the exported CSV: Python's csv module writes strings,
numbers, booleans, and writes `None` as the empty field (the explicit
absent marker). -/
inductive Cell where
  | str (v : String)
  | num (v : ℚ)
  | bool (v : Bool)
  | absent
deriving DecidableEq, Repr

/-- The header row written by `export_log`. -/
def csvHeader : List Cell :=
  [.str "timestamp", .str "target_x", .str "target_y", .str "target_z",
   .str "target_r1", .str "target_r2", .str "target_r3",
   .str "reached_x", .str "reached_y", .str "reached_z",
   .str "reached_r1", .str "reached_r2", .str "reached_r3",
   .str "error", .str "pass"]

/-- One data row of the export: `reached = r['reached'] or [None]*6`
makes all six reached fields `None` when the readback was absent. -/
def resultRow (r : VisitResult) : List Cell :=
  let reachedCells : List Cell :=
    match r.reached with
    | some p => [.num p.x, .num p.y, .num p.z, .num p.r1, .num p.r2,
                 .num p.r3]
    | none => [.absent, .absent, .absent, .absent, .absent, .absent]
  let errCell : Cell :=
    match r.error with
    | some e => .num e
    | none => .absent
  [Cell.str r.timestamp,
   .num r.target.x, .num r.target.y, .num r.target.z,
   .num r.target.r1, .num r.target.r2, .num r.target.r3]
  ++ reachedCells ++ [errCell, .bool r.passed]

/-- `export_log`: with no recorded results, logs and writes nothing
(second component none); otherwise the written file content is the header
followed by one row per result, in recording order.  (The
timestamp-derived file name and a possible I/O failure of the write are
outside the model; the content written on success is as returned.) -/
def export_log (s : GUIState) : GUIState × Option (List (List Cell)) :=
  if s.results.length = 0 then
    (logMsg s "No results to export.", none)
  else
    let file := csvHeader :: s.results.map resultRow
    (logMsg s "Exported log", some file)

/-- `clear_log`: discards the recorded results. -/
def clear_log (s : GUIState) : GUIState :=
  logMsg { s with results := [] } "Cleared log results."

/-- Every operation the event loop can run on the GUI state. -/
inductive Op where
  | start
  | togglePause (checked : Bool)
  | estop
  | clearStop
  | skip
  | colorPoint
  | jog (axis : Nat) (delta : ℚ)
  | moveNext
  | tick (now : String)
  | goHome
  | exportLog
  | clearLog
deriving DecidableEq, Repr

/-- Apply one operation; for fallible operations the state after the
exception (whose mutations persist) is kept. -/
def applyOp (hw : HW) (op : Op) (s : GUIState) : GUIState :=
  match op with
  | .start => start_exploration hw s
  | .togglePause checked => toggle_pause hw s checked
  | .estop => emergency_stop hw s
  | .clearStop => (clear_stop hw s).1
  | .skip => skip_point hw s
  | .colorPoint => color_current_point s
  | .jog axis delta => jog_axis hw s axis delta
  | .moveNext => move_to_next_point hw s
  | .tick now => (check_robot_status hw now s).1
  | .goHome => (go_home hw s).1
  | .exportLog => (export_log s).1
  | .clearLog => clear_log s

/-! ## Fixtures and auxiliary definitions for the verification -/

/-- A sequence of canvas recolouring calls. -/
inductive CanvasOp where
  | update (index : Int) (color : Color)
  | highlight (index : Int)
deriving DecidableEq, Repr

def applyCanvasOp (c : MplCanvas) (op : CanvasOp) : MplCanvas :=
  match op with
  | .update i col => update_point_color c i col
  | .highlight i => highlight_point c i

def applyCanvasOps (c : MplCanvas) (ops : List CanvasOp) : MplCanvas :=
  ops.foldl applyCanvasOp c

/-- Hardware oracle for a fully working connection whose pose readback is
`final` and which reports the arm idle. -/
def evalFixtureHW (final : Option Pose) : HW :=
  { connected := true, sendCoordsOk := true, coords := final,
    isMoving := some false, hasStop := true, stopOk := true,
    sendAnglesOk := true, releaseOk := true }

/-- Oracle for the absent handle (`self.mc = None` after a failed
connection); the per-call fields are irrelevant since no call reaches the
hardware. -/
def hwAbsent : HW :=
  { connected := false, sendCoordsOk := true, coords := none,
    isMoving := none, hasStop := false, stopOk := true,
    sendAnglesOk := true, releaseOk := true }

/-- GUI state mid-exploration over a single target: a move was issued and
not yet evaluated. -/
def evalFixtureState (target : Pose) : GUIState :=
  { initState [target] with robot_busy := true }

/-- A one-point canvas whose single marker is currently highlighted. -/
def c5Canvas : MplCanvas :=
  highlight_point (MplCanvas.construct [poseDefault]) 0

/-- Sample rational stand-ins for the float cosine table at the 12 angle
indices (exact values are irrelevant to the claims). -/
def fcosC : Nat → ℚ :=
  fun i => ([1, 87/100, 1/2, 0, -(1/2), -(87/100), -1, -(87/100), -(1/2),
             0, 1/2, 87/100] : List ℚ).getD i 0

/-- Sample rational stand-ins for the float sine table. -/
def fsinC : Nat → ℚ :=
  fun i => ([0, 1/2, 87/100, 1, 87/100, 1/2, 0, -(1/2), -(87/100), -1,
             -(87/100), -(1/2)] : List ℚ).getD i 0

/-- Sample rounding stand-in (identity: all table entries already have at
most two decimals). -/
def round2C : ℚ → ℚ := fun q => q

/-- A state with the emergency-stop latch set. -/
def stoppedFixture : GUIState :=
  { initState [poseDefault] with stopped := true }

/-- A paused state whose pose labels still show the initial "N/A". -/
def pausedFixture : GUIState :=
  { initState [poseDefault] with paused := true }

/-- A state with one recorded visit whose readback was absent. -/
def exportFixture : GUIState :=
  { initState [poseDefault] with
      results := [VisitResult.mk poseDefault none none false "t"] }

/-! ## Theorems -/

set_option maxRecDepth 100000
set_option maxHeartbeats 2000000

/-- C6: with the default parameters the rectangular grid generator
produces exactly 13 * 13 * 4 = 676 poses, ordered with the outer loop over
Z in the given order, then X ascending, then Y ascending, both endpoints
included, orientation (180, 0, 0), and no reachability filtering (every
one of the 676 grid combinations is present at its expected position). -/
theorem C6_grid_default_count_and_order :
    defaultGridPoints.length = 676 ∧
    ∀ iz < 4, ∀ ix < 13, ∀ iy < 13,
      defaultGridPoints.getD (iz * 169 + ix * 13 + iy) poseDefault =
        Pose.mk ((-300 + 50 * (ix : Int) : Int) : ℚ)
          ((-300 + 50 * (iy : Int) : Int) : ℚ)
          (([40, 50, 100, 200] : List ℚ).getD iz 0) 180 0 0 := by
  constructor
  · decide
  · decide

/-- Witness for C6 at the last grid combination (both endpoints 300,
height 200). -/
theorem C6_grid_default_count_and_order_witness :
    defaultGridPoints.getD (3 * 169 + 12 * 13 + 12) poseDefault =
      Pose.mk ((-300 + 50 * ((12 : Nat) : Int) : Int) : ℚ)
        ((-300 + 50 * ((12 : Nat) : Int) : Int) : ℚ)
        (([40, 50, 100, 200] : List ℚ).getD 3 0) 180 0 0 :=
  C6_grid_default_count_and_order.2 3 (by decide) 12 (by decide) 12
    (by decide)

/-- C2: point evaluation sums absolute positional differences over the
first three components only and passes on a strict less-than-10 test: for
target (0,0,100,...) and final (5,5,100,...) the error is 10 and the tick
records a failing result with a red marker; for final (3,3,100,...) the
error is 6 and the tick records a passing result with a white marker; the
error never depends on the orientation components. -/
theorem C2_point_evaluation (o1 o2 o3 p1 p2 p3 : ℚ) (now : String) :
    positionError (Pose.mk 5 5 100 p1 p2 p3) (Pose.mk 0 0 100 o1 o2 o3)
        = 10 ∧
    positionError (Pose.mk 3 3 100 p1 p2 p3) (Pose.mk 0 0 100 o1 o2 o3)
        = 6 ∧
    (∀ f t f' t' : Pose, f.x = f'.x → f.y = f'.y → f.z = f'.z →
        t.x = t'.x → t.y = t'.y → t.z = t'.z →
        positionError f t = positionError f' t') ∧
    ((check_robot_status (evalFixtureHW (some (Pose.mk 5 5 100 p1 p2 p3)))
        now (evalFixtureState (Pose.mk 0 0 100 o1 o2 o3))).1.results =
      [VisitResult.mk (Pose.mk 0 0 100 o1 o2 o3)
        (some (Pose.mk 5 5 100 p1 p2 p3)) (some 10) false now] ∧
     (check_robot_status (evalFixtureHW (some (Pose.mk 5 5 100 p1 p2 p3)))
        now (evalFixtureState (Pose.mk 0 0 100 o1 o2 o3))).1.canvas.colors =
      [failureRed]) ∧
    ((check_robot_status (evalFixtureHW (some (Pose.mk 3 3 100 p1 p2 p3)))
        now (evalFixtureState (Pose.mk 0 0 100 o1 o2 o3))).1.results =
      [VisitResult.mk (Pose.mk 0 0 100 o1 o2 o3)
        (some (Pose.mk 3 3 100 p1 p2 p3)) (some 6) true now] ∧
     (check_robot_status (evalFixtureHW (some (Pose.mk 3 3 100 p1 p2 p3)))
        now (evalFixtureState (Pose.mk 0 0 100 o1 o2 o3))).1.canvas.colors =
      [successWhite]) := by
  refine ⟨by norm_num [positionError], by norm_num [positionError],
    ?_, ?_, ?_⟩
  · intro f t f' t' h1 h2 h3 h4 h5 h6
    simp [positionError, h1, h2, h3, h4, h5, h6]
  · constructor <;>
      norm_num [check_robot_status, evalFixtureHW, evalFixtureState,
        initState, MplCanvas.construct, highlight_point, update_point_color,
        safe_mc_get_coords, safe_mc_is_moving, logMsg, positionError]
  · constructor <;>
      norm_num [check_robot_status, evalFixtureHW, evalFixtureState,
        initState, MplCanvas.construct, highlight_point, update_point_color,
        safe_mc_get_coords, safe_mc_is_moving, logMsg, positionError]

/-- Witness for C2 at concrete orientation values. -/
theorem C2_point_evaluation_witness :
    positionError (Pose.mk 5 5 100 7 8 9) (Pose.mk 0 0 100 1 2 3) = 10 ∧
    positionError (Pose.mk 5 5 100 7 8 9) (Pose.mk 0 0 100 4 5 6) =
      positionError (Pose.mk 5 5 100 0 0 0) (Pose.mk 0 0 100 0 0 0) :=
  ⟨(C2_point_evaluation 1 2 3 7 8 9 "t").1,
   (C2_point_evaluation 4 5 6 7 8 9 "t").2.2.1
     (Pose.mk 5 5 100 7 8 9) (Pose.mk 0 0 100 4 5 6)
     (Pose.mk 5 5 100 0 0 0) (Pose.mk 0 0 100 0 0 0)
     rfl rfl rfl rfl rfl rfl⟩

/-- C5 counterexample: on a one-point canvas whose marker is currently
highlight yellow, calling highlight_point with the out-of-range index 1
does change the colour array (the reset pass runs before the range
check), refuting the claim that both operations leave it unchanged. -/
theorem C5_counterexample_highlight_mutates :
    (c5Canvas.points.length : Int) ≤ 1 ∧
    (highlight_point c5Canvas 1).colors ≠ c5Canvas.colors := by
  constructor
  · norm_num [c5Canvas, highlight_point, MplCanvas.construct]
  · norm_num [c5Canvas, highlight_point, MplCanvas.construct,
      unvisitedBlue, highlightYellow, successWhite, failureRed]

/-- C5 (amended): for any index outside [0, N) and any colour,
update_point_color leaves the canvas exactly unchanged and raises no
exception, while highlight_point raises no exception and leaves the point
list unchanged but still performs its reset pass on the colour array:
markers coloured success white or failure red are kept and every other
marker is reset to the unvisited blue. -/
theorem C5_out_of_range_behavior (c : MplCanvas) (index : Int)
    (color : Color) (h : ¬(0 ≤ index ∧ index < (c.points.length : Int))) :
    update_point_color c index color = c ∧
    (highlight_point c index).points = c.points ∧
    (highlight_point c index).colors = c.colors.map
      (fun col => if col = successWhite ∨ col = failureRed then col
                  else unvisitedBlue) := by
  refine ⟨?_, ?_, ?_⟩ <;> simp [update_point_color, highlight_point, h]

/-- Witness for C5 (amended) at index -1 on the one-point canvas. -/
theorem C5_out_of_range_behavior_witness :
    update_point_color c5Canvas (-1) unknownGray = c5Canvas ∧
    (highlight_point c5Canvas (-1)).points = c5Canvas.points ∧
    (highlight_point c5Canvas (-1)).colors = c5Canvas.colors.map
      (fun col => if col = successWhite ∨ col = failureRed then col
                  else unvisitedBlue) :=
  C5_out_of_range_behavior c5Canvas (-1) unknownGray (by decide)

/-- Any single canvas operation keeps the point list and the length of
the colour array. -/
theorem applyCanvasOp_preserves_shape (c : MplCanvas) (op : CanvasOp) :
    (applyCanvasOp c op).points = c.points ∧
    (applyCanvasOp c op).colors.length = c.colors.length := by
  cases op with
  | update i col =>
      simp only [applyCanvasOp, update_point_color]
      split <;> simp
  | highlight i =>
      simp only [applyCanvasOp, highlight_point]
      split <;> simp

/-- C10: after construction and after any sequence of update_point_color
and highlight_point calls with any indices and colours, the canvas colour
array has exactly one entry per pose. -/
theorem C10_canvas_length_invariant (points : List Pose)
    (ops : List CanvasOp) :
    (applyCanvasOps (MplCanvas.construct points) ops).colors.length =
      (applyCanvasOps (MplCanvas.construct points) ops).points.length := by
  suffices h : ∀ c : MplCanvas, c.colors.length = c.points.length →
      (applyCanvasOps c ops).colors.length =
        (applyCanvasOps c ops).points.length by
    exact h _ (by simp [MplCanvas.construct])
  induction ops with
  | nil => intro c hc; simpa [applyCanvasOps] using hc
  | cons op rest ih =>
      intro c hc
      have hop := applyCanvasOp_preserves_shape c op
      have := ih (applyCanvasOp c op) (by rw [hop.2, hop.1, hc])
      simpa [applyCanvasOps] using this

/-- C1 (code evaluated at the failing input): every safe wrapper does
return a benign value on the absent handle, but the Go Home command and
the Clear stop / reset sequence are not wrapped: with the handle absent,
go_home raises AttributeError (self.mc is None), and clear_stop from the
stopped state raises AttributeError after already clearing the stopped
flag — so the claim that these complete without raising is violated by
the code. -/
theorem C1_unguarded_calls_raise_when_disconnected :
    safe_mc_get_coords hwAbsent = none ∧
    safe_mc_is_moving hwAbsent = false ∧
    (safe_mc_send_coords hwAbsent (initState [poseDefault]) poseDefault
        10).sentCoords = [] ∧
    (go_home hwAbsent (initState [poseDefault])).2 =
      some PyErr.attributeError ∧
    (clear_stop hwAbsent stoppedFixture).2 = some PyErr.attributeError ∧
    (clear_stop hwAbsent stoppedFixture).1.stopped = false ∧
    (go_home (evalFixtureHW none) { initState [poseDefault] with
        paused := true }).2 = none ∧
    (go_home { evalFixtureHW none with sendAnglesOk := false }
        (initState [poseDefault])).2 = some PyErr.hwError := by
  refine ⟨rfl, rfl, rfl, rfl, rfl, rfl, rfl, rfl⟩

/-! Helper lemmas: no GUI operation other than clear_stop ever writes the
stopped flag (and none but emergency_stop and clear_stop even mentions
it). -/

theorem logMsg_stopped (s : GUIState) (m : String) :
    (logMsg s m).stopped = s.stopped := rfl

theorem safe_mc_send_coords_stopped (hw : HW) (s : GUIState) (c : Pose)
    (v : Nat) : (safe_mc_send_coords hw s c v).stopped = s.stopped := by
  unfold safe_mc_send_coords
  split
  · rfl
  · split <;> rfl

theorem move_to_next_point_stopped (hw : HW) (s : GUIState) :
    (move_to_next_point hw s).stopped = s.stopped := by
  unfold move_to_next_point
  split
  · rfl
  · split
    · rfl
    · rw [safe_mc_send_coords_stopped]
      rfl

theorem start_exploration_stopped (hw : HW) (s : GUIState) :
    (start_exploration hw s).stopped = s.stopped := by
  unfold start_exploration
  split
  · rfl
  · rw [move_to_next_point_stopped]
    split <;> split <;> rfl

theorem toggle_pause_stopped (hw : HW) (s : GUIState) (b : Bool) :
    (toggle_pause hw s b).stopped = s.stopped := by
  unfold toggle_pause
  split
  · rfl
  · dsimp only
    split
    · rw [move_to_next_point_stopped]
      rfl
    · rfl

theorem skip_point_stopped (hw : HW) (s : GUIState) :
    (skip_point hw s).stopped = s.stopped := by
  unfold skip_point
  dsimp only
  split
  · rw [move_to_next_point_stopped]
  · rfl

theorem color_current_point_stopped (s : GUIState) :
    (color_current_point s).stopped = s.stopped := by
  unfold color_current_point
  split <;> rfl

theorem jog_axis_stopped (hw : HW) (s : GUIState) (a : Nat) (d : ℚ) :
    (jog_axis hw s a d).stopped = s.stopped := by
  unfold jog_axis
  split
  · rfl
  · split
    · rfl
    · rw [safe_mc_send_coords_stopped]
      rfl

theorem check_robot_status_stopped (hw : HW) (now : String) (s : GUIState) :
    (check_robot_status hw now s).1.stopped = s.stopped := by
  unfold check_robot_status
  cases hc : safe_mc_get_coords hw <;>
  · dsimp only
    split
    · rfl
    · split
      · rfl
      · split
        · rfl
        · rw [apply_ite Prod.fst, ite_self]
          rfl

theorem go_home_stopped (hw : HW) (s : GUIState) :
    (go_home hw s).1.stopped = s.stopped := by
  unfold go_home
  split
  · rfl
  · split <;> rfl

theorem attempt_stop_api_state (hw : HW) (s : GUIState) :
    (attempt_stop_api hw s).1.stopped = s.stopped ∧
    (attempt_stop_api hw s).1.paused = s.paused := by
  unfold attempt_stop_api
  split
  · exact ⟨rfl, rfl⟩
  · split
    · split <;> exact ⟨rfl, rfl⟩
    · exact ⟨rfl, rfl⟩

theorem emergency_stop_flags (hw : HW) (s : GUIState) :
    (emergency_stop hw s).stopped = true ∧
    (emergency_stop hw s).paused = true := by
  unfold emergency_stop
  dsimp only
  have hs2 := attempt_stop_api_state hw
      (logMsg { s with stopped := true, paused := true }
        "EMERGENCY STOP triggered!")
  split
  · exact ⟨hs2.1, hs2.2⟩
  · cases hc : safe_mc_get_coords hw
    · exact ⟨hs2.1, hs2.2⟩
    · dsimp only
      split
      · exact ⟨hs2.1, hs2.2⟩
      · exact ⟨hs2.1, hs2.2⟩

theorem export_log_stopped (s : GUIState) :
    (export_log s).1.stopped = s.stopped := by
  unfold export_log
  split <;> rfl

theorem clear_log_stopped (s : GUIState) :
    (clear_log s).stopped = s.stopped := rfl

/-- C3: after any emergency stop both stopped and paused are true,
whatever the hardware oracle says about the stop capability; while
stopped, start_exploration refuses — it only appends the system-stopped
log message, so it issues no move command and leaves the latch set; and
no operation other than clear_stop ever clears the stopped flag. -/
theorem C3_stop_latch (hw : HW) (s : GUIState) (op : Op)
    (hop : op ≠ Op.clearStop) (hstop : s.stopped = true) :
    ((emergency_stop hw s).stopped = true ∧
     (emergency_stop hw s).paused = true) ∧
    (start_exploration hw s =
        logMsg s "System stopped. Clear stop to start." ∧
     (start_exploration hw s).sentCoords = s.sentCoords ∧
     (start_exploration hw s).stopped = true) ∧
    (applyOp hw op s).stopped = true := by
  have h1 : start_exploration hw s =
      logMsg s "System stopped. Clear stop to start." := by
    unfold start_exploration
    simp [hstop]
  refine ⟨emergency_stop_flags hw s,
    ⟨h1, by rw [h1]; rfl, by rw [h1]; exact hstop⟩, ?_⟩
  cases op with
  | start =>
      rw [show applyOp hw Op.start s = start_exploration hw s from rfl,
        start_exploration_stopped]
      exact hstop
  | togglePause b =>
      rw [show applyOp hw (Op.togglePause b) s = toggle_pause hw s b from
        rfl, toggle_pause_stopped]
      exact hstop
  | estop => exact (emergency_stop_flags hw s).1
  | clearStop => exact absurd rfl hop
  | skip =>
      rw [show applyOp hw Op.skip s = skip_point hw s from rfl,
        skip_point_stopped]
      exact hstop
  | colorPoint =>
      rw [show applyOp hw Op.colorPoint s = color_current_point s from rfl,
        color_current_point_stopped]
      exact hstop
  | jog a d =>
      rw [show applyOp hw (Op.jog a d) s = jog_axis hw s a d from rfl,
        jog_axis_stopped]
      exact hstop
  | moveNext =>
      rw [show applyOp hw Op.moveNext s = move_to_next_point hw s from rfl,
        move_to_next_point_stopped]
      exact hstop
  | tick now =>
      rw [show applyOp hw (Op.tick now) s =
        (check_robot_status hw now s).1 from rfl,
        check_robot_status_stopped]
      exact hstop
  | goHome =>
      rw [show applyOp hw Op.goHome s = (go_home hw s).1 from rfl,
        go_home_stopped]
      exact hstop
  | exportLog =>
      rw [show applyOp hw Op.exportLog s = (export_log s).1 from rfl,
        export_log_stopped]
      exact hstop
  | clearLog =>
      rw [show applyOp hw Op.clearLog s = clear_log s from rfl,
        clear_log_stopped]
      exact hstop

/-- Witness for C3: absent hardware, a latched state, and the skip
operation. -/
theorem C3_stop_latch_witness :
    ((emergency_stop hwAbsent stoppedFixture).stopped = true ∧
     (emergency_stop hwAbsent stoppedFixture).paused = true) ∧
    (start_exploration hwAbsent stoppedFixture =
        logMsg stoppedFixture "System stopped. Clear stop to start." ∧
     (start_exploration hwAbsent stoppedFixture).sentCoords =
        stoppedFixture.sentCoords ∧
     (start_exploration hwAbsent stoppedFixture).stopped = true) ∧
    (applyOp hwAbsent Op.skip stoppedFixture).stopped = true :=
  C3_stop_latch hwAbsent stoppedFixture Op.skip (by decide) rfl

/-- C4: in every tick that performs a point evaluation (a pending move,
arm reported idle, set not exhausted, neither paused nor stopped),
robot_busy is cleared and current_index advanced by exactly one in the
state from which the follow-up runs, no move command is dispatched within
the tick itself, and the follow-up move is scheduled via the 250 ms
one-shot deferral. -/
theorem C4_eval_tick_advances_and_defers (hw : HW) (now : String)
    (s : GUIState) (hidx : s.current_index < s.points.length)
    (hp : s.paused = false) (hst : s.stopped = false)
    (hmov : safe_mc_is_moving hw = false)
    (hbusy : s.robot_busy = true) :
    (check_robot_status hw now s).1.robot_busy = false ∧
    (check_robot_status hw now s).1.current_index = s.current_index + 1 ∧
    (check_robot_status hw now s).1.sentCoords = s.sentCoords ∧
    (check_robot_status hw now s).2 = true := by
  have h1 : ¬s.points.length ≤ s.current_index := not_le.mpr hidx
  unfold check_robot_status
  cases hc : safe_mc_get_coords hw <;>
    simp [hp, hst, hbusy, hmov, h1, logMsg]

/-- Witness for C4: a working connection and a pending move over one
target. -/
theorem C4_eval_tick_advances_and_defers_witness :
    ((check_robot_status (evalFixtureHW (some poseDefault)) "t"
        (evalFixtureState poseDefault)).1.robot_busy = false) ∧
    ((check_robot_status (evalFixtureHW (some poseDefault)) "t"
        (evalFixtureState poseDefault)).1.current_index =
      (evalFixtureState poseDefault).current_index + 1) ∧
    ((check_robot_status (evalFixtureHW (some poseDefault)) "t"
        (evalFixtureState poseDefault)).1.sentCoords =
      (evalFixtureState poseDefault).sentCoords) ∧
    ((check_robot_status (evalFixtureHW (some poseDefault)) "t"
        (evalFixtureState poseDefault)).2 = true) :=
  C4_eval_tick_advances_and_defers (evalFixtureHW (some poseDefault)) "t"
    (evalFixtureState poseDefault) (by decide) rfl rfl rfl rfl

/-- C8 counterexample: with a readable pose and paused = true, the tick
still refreshes the live pose labels (the readout runs before the
exhausted/paused/stopped guard), so the tick is not skipped entirely and
does mutate state. -/
theorem C8_counterexample_labels_update_while_paused :
    pausedFixture.paused = true ∧
    (check_robot_status (evalFixtureHW (some poseDefault)) "t"
        pausedFixture).1.labels ≠ pausedFixture.labels := by
  refine ⟨rfl, ?_⟩
  simp [check_robot_status, evalFixtureHW, pausedFixture, initState,
    safe_mc_get_coords]

/-- C8 (amended): when the pose set is exhausted, or paused, or stopped,
the tick still reads the current coordinates and refreshes the live pose
labels when they are readable, but does nothing else: no is_moving query,
no evaluation, no mutation of any other state, and no follow-up move is
scheduled. -/
theorem C8_tick_guard (hw : HW) (now : String) (s : GUIState)
    (h : s.points.length ≤ s.current_index ∨ s.paused = true ∨
      s.stopped = true) :
    check_robot_status hw now s =
      (match safe_mc_get_coords hw with
       | some c => { s with labels := some c }
       | none => s, false) ∧
    (check_robot_status hw now s).1.isMovingQueries = s.isMovingQueries ∧
    (check_robot_status hw now s).1.results = s.results ∧
    (check_robot_status hw now s).1.robot_busy = s.robot_busy ∧
    (check_robot_status hw now s).1.current_index = s.current_index ∧
    (check_robot_status hw now s).1.canvas = s.canvas ∧
    (check_robot_status hw now s).1.sentCoords = s.sentCoords ∧
    (check_robot_status hw now s).2 = false := by
  unfold check_robot_status
  cases hc : safe_mc_get_coords hw <;> dsimp only <;> rw [if_pos h] <;>
    exact ⟨rfl, rfl, rfl, rfl, rfl, rfl, rfl, rfl⟩

/-- Witness for C8 (amended) on the paused fixture with absent
hardware. -/
theorem C8_tick_guard_witness :
    check_robot_status hwAbsent "t" pausedFixture =
      (match safe_mc_get_coords hwAbsent with
       | some c => { pausedFixture with labels := some c }
       | none => pausedFixture, false) ∧
    (check_robot_status hwAbsent "t" pausedFixture).1.isMovingQueries =
      pausedFixture.isMovingQueries ∧
    (check_robot_status hwAbsent "t" pausedFixture).1.results =
      pausedFixture.results ∧
    (check_robot_status hwAbsent "t" pausedFixture).1.robot_busy =
      pausedFixture.robot_busy ∧
    (check_robot_status hwAbsent "t" pausedFixture).1.current_index =
      pausedFixture.current_index ∧
    (check_robot_status hwAbsent "t" pausedFixture).1.canvas =
      pausedFixture.canvas ∧
    (check_robot_status hwAbsent "t" pausedFixture).1.sentCoords =
      pausedFixture.sentCoords ∧
    (check_robot_status hwAbsent "t" pausedFixture).2 = false :=
  C8_tick_guard hwAbsent "t" pausedFixture (Or.inr (Or.inl rfl))

/-- C9: exporting with zero recorded results writes no file and logs the
no-results message; exporting N >= 1 results writes exactly N + 1 rows —
the header plus one row of width 15 per result, in recording order — and
every row whose reached pose is absent carries the explicit absent marker
in all six reached fields. -/
theorem C9_export_shape (s : GUIState) :
    (s.results = [] →
      export_log s = (logMsg s "No results to export.", none)) ∧
    (s.results ≠ [] →
      (export_log s).2 = some (csvHeader :: s.results.map resultRow) ∧
      ∀ f, (export_log s).2 = some f → f.length = s.results.length + 1) ∧
    csvHeader.length = 15 ∧
    (∀ r : VisitResult, (resultRow r).length = 15) ∧
    (∀ r : VisitResult, r.reached = none →
      ((resultRow r).drop 7).take 6 =
        [Cell.absent, Cell.absent, Cell.absent,
         Cell.absent, Cell.absent, Cell.absent]) := by
  refine ⟨?_, ?_, rfl, ?_, ?_⟩
  · intro h
    unfold export_log
    simp [h]
  · intro h
    have hlen : ¬s.results.length = 0 := by
      simpa [List.length_eq_zero] using h
    unfold export_log
    rw [if_neg hlen]
    refine ⟨rfl, ?_⟩
    intro f hf
    have : csvHeader :: s.results.map resultRow = f :=
      Option.some.inj hf
    rw [← this]
    simp
  · intro r
    unfold resultRow
    cases r.reached <;> cases r.error <;> rfl
  · intro r h
    unfold resultRow
    rw [h]
    cases r.error <;> rfl

/-- Witness for C9: the empty log and a one-result log whose readback was
absent. -/
theorem C9_export_shape_witness :
    export_log (initState [poseDefault]) =
      (logMsg (initState [poseDefault]) "No results to export.", none) ∧
    (export_log exportFixture).2 =
      some (csvHeader :: exportFixture.results.map resultRow) ∧
    ((resultRow (VisitResult.mk poseDefault none none false "t")).drop
        7).take 6 =
      [Cell.absent, Cell.absent, Cell.absent,
       Cell.absent, Cell.absent, Cell.absent] :=
  ⟨(C9_export_shape (initState [poseDefault])).1 rfl,
   ((C9_export_shape exportFixture).2.1 (by simp [exportFixture])).1,
   (C9_export_shape exportFixture).2.2.2.2
     (VisitResult.mk poseDefault none none false "t") rfl⟩

/-- C7: every pose emitted by the polar generator lies within the arm's
reach — the 3D Euclidean distance computed over its rounded x, y and its
layer height z is at most 280 mm — for every possible float cos, sin and
rounding behaviour; and whenever the floats behave exactly at angle
index 0 (the actual Python floats do: cos 0 = 1.0 and sin 0 = 0.0
exactly, and round fixes 20.0 and 0.0), the first emitted sample — first
layer height 40, radius 20, angle index 0 — is exactly
(20.0, 0.0, 40.0, 180.0, 0.0, 0.0). -/
theorem C7_polar_reach_and_first_sample :
    (∀ (fcos fsin : Nat → ℚ) (round2 : ℚ → ℚ),
      ∀ p ∈ generate_points fcos fsin round2,
        Real.sqrt ((p.x : ℝ) ^ 2 + (p.y : ℝ) ^ 2 + (p.z : ℝ) ^ 2)
          ≤ 280) ∧
    (∀ (fcos fsin : Nat → ℚ) (round2 : ℚ → ℚ),
      fcos 0 = 1 → fsin 0 = 0 → round2 20 = 20 → round2 0 = 0 →
      (generate_points fcos fsin round2).head? =
        some (Pose.mk 20 0 40 180 0 0)) := by
  constructor
  · intro fcos fsin round2 p hp
    simp only [generate_points, List.mem_flatMap, List.mem_filterMap]
      at hp
    obtain ⟨z, hz, radius, hr, i, hi, hif⟩ := hp
    split at hif
    case isTrue hcond =>
      obtain rfl : Pose.mk (round2 (radius * fcos i))
          (round2 (radius * fsin i)) z 180 0 0 = p :=
        Option.some.inj hif
      have hq : (round2 (radius * fcos i)) ^ 2 +
          (round2 (radius * fsin i)) ^ 2 + z ^ 2 ≤ (280 : ℚ) ^ 2 := by
        simpa [MAX_REACH] using hcond
      have hcast : ((round2 (radius * fcos i) : ℝ)) ^ 2 +
          ((round2 (radius * fsin i) : ℝ)) ^ 2 + ((z : ℝ)) ^ 2 ≤
            (280 : ℝ) ^ 2 := by exact_mod_cast hq
      calc Real.sqrt ((round2 (radius * fcos i) : ℝ) ^ 2 +
            (round2 (radius * fsin i) : ℝ) ^ 2 + (z : ℝ) ^ 2)
          ≤ Real.sqrt ((280 : ℝ) ^ 2) := Real.sqrt_le_sqrt hcast
        _ = 280 := Real.sqrt_sq (by norm_num)
    case isFalse hcond => simp at hif
  · intro fcos fsin round2 hcos hsin h20 h0
    have h12 : List.range ANGLE_STEPS = [0, 1, 2, 3, 4, 5, 6, 7, 8, 9,
      10, 11] := by decide
    have h10 : List.range 10 = [0, 1, 2, 3, 4, 5, 6, 7, 8, 9] := by
      decide
    unfold generate_points Z_LAYERS radiusValues
    rw [h12, h10]
    norm_num [RADIUS_STEP, MAX_REACH, hcos, hsin, h20, h0]

/-- Witness for C7 with the sample float tables: the first emitted pose
and its distance bound. -/
theorem C7_polar_reach_and_first_sample_witness :
    Real.sqrt (((20 : ℚ) : ℝ) ^ 2 + ((0 : ℚ) : ℝ) ^ 2 +
        ((40 : ℚ) : ℝ) ^ 2) ≤ 280 ∧
    (generate_points fcosC fsinC round2C).head? =
      some (Pose.mk 20 0 40 180 0 0) := by
  have hh := C7_polar_reach_and_first_sample.2 fcosC fsinC round2C
    rfl rfl rfl rfl
  refine ⟨?_, hh⟩
  have hmem : Pose.mk 20 0 40 180 0 0 ∈
      generate_points fcosC fsinC round2C := by
    apply List.mem_of_mem_head?
    rw [hh]
    rfl
  have hb := C7_polar_reach_and_first_sample.1 fcosC fsinC round2C
    (Pose.mk 20 0 40 180 0 0) hmem
  simpa using hb

end MyCobot
